import Mathlib

/-!
Shallow embedding of the Drawer (Disclosure Panel) component of the
jsui component library, together with the NavBar composition that embeds it,
and theorems about the state/reconciliation contract, the labelling rule,
the sizing policy, the prop defaults and the trigger-prop merging.

Callbacks of type `() => void` are modelled by the observable outcome of one
invocation: `Except Nat Unit`, where `Except.error e` stands for a thrown
exception with payload id `e`. A missing optional prop is `none`; supplying
a prop with value `v` is `some v`.
-/

namespace Jsui

/-- The four viewport edges a drawer can be anchored to (the `position` prop
of the Drawer component). -/
inductive Position
  | left
  | right
  | top
  | bottom
  deriving DecidableEq, Repr

/-- Opaque renderable nodes (React `ReactNode` values) appearing in the
library: text, the menu and close icons, and arbitrary caller content. -/
inductive Node
  | text (s : String)
  | menuIcon
  | closeIcon
  | custom (id : Nat)
  deriving DecidableEq, Repr

/-- Visual variants of the IconButton component. -/
inductive Variant
  | outlined
  | text
  | contained
  deriving DecidableEq, Repr

/-- Color themes of the IconButton component. -/
inductive Color
  | primary
  | secondary
  | error
  | info
  | success
  | warning
  deriving DecidableEq, Repr

/-- Sizes of the IconButton component. -/
inductive Size
  | small
  | medium
  | large
  deriving DecidableEq, Repr

/-- Click handlers installable on the trigger control: the internal
`() => handleDrawerToggle(isOpen)` closure, or a caller-supplied handler
identified by an id. -/
inductive ClickHandler
  | drawerToggle (isOpen : Bool)
  | custom (id : Nat)
  deriving DecidableEq, Repr

/-- Props of the IconButton component (IconButton.tsx). -/
structure IconButtonProps where
  variant : Option Variant := none
  color : Option Color := none
  content : Option Node := none
  startIcon : Option Node := none
  endIcon : Option Node := none
  loading : Option Bool := none
  disabled : Option Bool := none
  onClick : Option ClickHandler := none
  size : Option Size := none
  ariaLabel : Option String := none
  deriving DecidableEq, Repr

/-- Props of the Drawer component (Drawer.tsx). Callbacks are modelled by
the outcome of one invocation; `none` means the prop was omitted. -/
structure DrawerProps where
  «open» : Option Bool := none
  onClose : Option (Except Nat Unit) := none
  onOpen : Option (Except Nat Unit) := none
  title : Option String := none
  content : Option Node := none
  openButton : Option Bool := none
  closeButton : Option Bool := none
  openButtonProps : Option IconButtonProps := none
  position : Option Position := none
  width : Option Nat := none

/-- Internal state of one mounted Drawer instance: `drawerOpen` is the
`useState` visibility copy; `propOpen` is the value of the `open` prop seen
at the last render (the `useEffect` dependency). -/
structure DrawerState where
  propOpen : Bool
  drawerOpen : Bool
  deriving DecidableEq, Repr

/-- Observable callback invocations. -/
inductive CbEvent
  | onOpenCall
  | onCloseCall
  | customClick (id : Nat)
  deriving DecidableEq, Repr

/-- Result of one `handleDrawerToggle` call: the updated state (the
`setDrawerOpen` write, issued before the callback runs), the callback
invocations that occurred, and the control-flow outcome (`Except.error e`
when the invoked callback threw `e`, passed through unmodified). -/
structure ToggleResult where
  state : DrawerState
  events : List CbEvent
  result : Except Nat Unit
  deriving Repr

/-- Embedding of `handleDrawerToggle` from Drawer.tsx:
`setDrawerOpen(isOpen); if (isOpen) { onOpen?.(); } else { onClose?.(); }`. -/
def handleDrawerToggle (p : DrawerProps) (isOpen : Bool) (s : DrawerState) :
    ToggleResult :=
  { state := { s with drawerOpen := isOpen }
  , events :=
      if isOpen then
        if p.onOpen.isSome then [CbEvent.onOpenCall] else []
      else
        if p.onClose.isSome then [CbEvent.onCloseCall] else []
  , result :=
      if isOpen then p.onOpen.getD (Except.ok ())
      else p.onClose.getD (Except.ok ()) }

/-- Mounting a Drawer: `useState(open)` seeds the internal copy from the
`open` prop (default `false`); the mount-time `useEffect` run writes the
same value back, leaving the seed unchanged. -/
def mountDrawer (p : DrawerProps) : DrawerState :=
  { propOpen := p.«open».getD false
  , drawerOpen := p.«open».getD false }

/-- Events a mounted Drawer instance processes: a re-render delivering the
external `open` input with value `v`, a user/UI-driven open request
(`handleDrawerToggle(true)`), or a close request
(`handleDrawerToggle(false)`). -/
inductive DrawerEvent
  | setOpenProp (v : Bool)
  | requestOpen
  | requestClose
  deriving DecidableEq, Repr

/-- One step of the Drawer state machine. A `setOpenProp v` render fires the
`useEffect(() => setDrawerOpen(open), [open])` sync exactly when `v` differs
from the previously seen prop value, and invokes no callback; the request
events run `handleDrawerToggle`. -/
def drawerStep (p : DrawerProps) (s : DrawerState) (e : DrawerEvent) :
    DrawerState × List CbEvent :=
  match e with
  | .setOpenProp v =>
      if v ≠ s.propOpen then ({ propOpen := v, drawerOpen := v }, [])
      else ({ s with propOpen := v }, [])
  | .requestOpen =>
      let t := handleDrawerToggle p true s
      (t.state, t.events)
  | .requestClose =>
      let t := handleDrawerToggle p false s
      (t.state, t.events)

/-- Running a sequence of events, accumulating the callback trace. -/
def drawerRun (p : DrawerProps) : DrawerState → List DrawerEvent →
    DrawerState × List CbEvent
  | s, [] => (s, [])
  | s, e :: es =>
      let r := drawerStep p s e
      let rest := drawerRun p r.1 es
      (rest.1, r.2 ++ rest.2)

/-- A request encoded as a boolean: `true` is `requestOpen`, `false` is
`requestClose`. -/
def reqEvent (r : Bool) : DrawerEvent :=
  if r then .requestOpen else .requestClose

/-- JavaScript truthiness of an optional string, as used by
`title ? titleId : undefined` in Drawer.tsx: `undefined` and the empty
string are falsy. -/
def strTruthy : Option String → Bool
  | none => false
  | some s => s != ""

/-- The accessibility attributes placed on the drawer paper. -/
structure PaperA11y where
  role : String
  ariaLabelledby : Option String
  ariaLabel : Option String
  deriving DecidableEq, Repr

/-- Embedding of the `PaperProps` object of Drawer.tsx:
`role: "dialog"`, `"aria-labelledby": title ? titleId : undefined`,
`"aria-label": title ? undefined : "Drawer"`. -/
def paperProps (title : Option String) (titleId : String) : PaperA11y :=
  { role := "dialog"
  , ariaLabelledby := if strTruthy title then some titleId else none
  , ariaLabel := if strTruthy title then none else some "Drawer" }

/-- Embedding of `position === "left" || position === "right"`. -/
def isHorizontal (position : Position) : Bool :=
  position = Position.left || position = Position.right

/-- The size style applied to the drawer body box: a width entry or a
height entry. -/
inductive SizeStyle
  | width (v : Nat)
  | height (v : Nat)
  deriving DecidableEq, Repr

/-- Embedding of `drawerSize = isHorizontal ? \x7b width \x7d : \x7b height: width \x7d`
from Drawer.tsx. -/
def drawerSize (position : Position) (width : Nat) : SizeStyle :=
  if isHorizontal position then .width width else .height width

/-- Merged props of the trigger IconButton. The JSX writes `onClick` and
`aria-label` first and spreads `openButtonProps` afterwards, so any field
present in the bag overrides the component's own value. -/
def mergeTriggerProps (bag : IconButtonProps) : IconButtonProps :=
  { bag with
    onClick := some (bag.onClick.getD (ClickHandler.drawerToggle true))
  , ariaLabel := some (bag.ariaLabel.getD "Open drawer") }

/-- Fixed props of the dismiss IconButton inside the drawer. -/
def dismissControlProps : IconButtonProps :=
  { variant := some Variant.text
  , onClick := some (ClickHandler.drawerToggle false)
  , ariaLabel := some "Close drawer"
  , content := some Node.closeIcon }

/-- What one render of the Drawer component produces, restricted to the
parts the contract talks about. -/
structure RenderOutput where
  triggerRendered : Bool
  triggerProps : IconButtonProps
  anchor : Position
  surfaceOpen : Bool
  paper : PaperA11y
  size : SizeStyle
  titleRendered : Bool
  dismissRendered : Bool
  deriving DecidableEq, Repr

/-- Embedding of the Drawer component's render body: defaults applied by
destructuring (`open = false`, `openButton = true`, `closeButton = true`,
`position = "left"`, `width = 400`), the trigger gated by `openButton`,
the MuiDrawer anchored at `position` and opened by the internal state, the
paper accessibility attributes, the size computed from the anchor, the
title heading gated by truthiness, and the dismiss control gated by
`closeButton`. -/
def renderDrawer (p : DrawerProps) (titleId : String) (s : DrawerState) :
    RenderOutput :=
  { triggerRendered := p.openButton.getD true
  , triggerProps := mergeTriggerProps (p.openButtonProps.getD {})
  , anchor := p.position.getD Position.left
  , surfaceOpen := s.drawerOpen
  , paper := paperProps p.title titleId
  , size := drawerSize (p.position.getD Position.left) (p.width.getD 400)
  , titleRendered := strTruthy p.title
  , dismissRendered := p.closeButton.getD true }

/-- Activating the trigger control runs the merged `onClick` handler: the
internal closure toggles the drawer; a caller-supplied handler replaces it
and only records its own invocation. -/
def activateTrigger (p : DrawerProps) (s : DrawerState) :
    DrawerState × List CbEvent :=
  match (mergeTriggerProps (p.openButtonProps.getD {})).onClick with
  | some (ClickHandler.drawerToggle b) =>
      let t := handleDrawerToggle p b s
      (t.state, t.events)
  | some (ClickHandler.custom id) => (s, [CbEvent.customClick id])
  | none => (s, [])

/-- Color themes of the NavBar app bar (NavBar.tsx). -/
inductive NavBarColor
  | default
  | inherit
  | primary
  | secondary
  | transparent
  | error
  | info
  | success
  | warning
  deriving DecidableEq, Repr

/-- The `drawerProps` option of NavBar:
`Omit<DrawerProps, 'open' | 'openButton' | 'openButtonProps'>` — the three
excluded fields do not exist on this type, so a well-typed caller cannot
supply them. -/
structure NavBarDrawerProps where
  onClose : Option (Except Nat Unit) := none
  onOpen : Option (Except Nat Unit) := none
  title : Option String := none
  content : Option Node := none
  closeButton : Option Bool := none
  position : Option Position := none
  width : Option Nat := none

/-- The fixed `openButtonProps` bag NavBar gives its embedded Drawer:
a menu icon, text variant, large size, a color complementing the bar, and
the `Open navigation menu` label. -/
def navBarMenuButtonProps (color : NavBarColor) : IconButtonProps :=
  { content := some Node.menuIcon
  , variant := some Variant.text
  , size := some Size.large
  , color := some (if color = NavBarColor.primary then Color.secondary
      else Color.primary)
  , ariaLabel := some "Open navigation menu" }

/-- The full Drawer props NavBar renders when the menu is shown: the JSX
writes `open=\x7bfalse\x7d openButton=\x7btrue\x7d openButtonProps=\x7b...\x7d` and then spreads
`drawerProps`, whose type excludes those three keys, so they are never
overridden. -/
def navBarDrawerConfig (color : NavBarColor) (dp : NavBarDrawerProps) :
    DrawerProps :=
  { «open» := some false
  , openButton := some true
  , openButtonProps := some (navBarMenuButtonProps color)
  , onClose := dp.onClose
  , onOpen := dp.onOpen
  , title := dp.title
  , content := dp.content
  , closeButton := dp.closeButton
  , position := dp.position
  , width := dp.width }

/-- The Drawer instance NavBar mounts: present exactly when `showMenu`
(default `true`) resolves to true. -/
def navBarDrawer (showMenu : Option Bool) (color : NavBarColor)
    (dp : NavBarDrawerProps) : Option DrawerProps :=
  if showMenu.getD true then some (navBarDrawerConfig color dp) else none

/-- C1: when the external `open` input changes value between two consecutive
renders, the internal visibility copy is overwritten to the new value, and
neither `onOpen` nor `onClose` is invoked — the external synchronization is
silent in both directions. -/
theorem drawer_externalSync_silent (p : DrawerProps) (s : DrawerState)
    (v : Bool) (h : v ≠ s.propOpen) :
    drawerStep p s (DrawerEvent.setOpenProp v) = (⟨v, v⟩, []) := by
  simp [drawerStep, h]

/-- Witness for C1: both the false-to-true and the true-to-false external
change overwrite the internal copy with an empty callback trace. -/
theorem drawer_externalSync_silent_witness :
    drawerStep {} ⟨false, false⟩ (DrawerEvent.setOpenProp true) =
      (⟨true, true⟩, []) ∧
    drawerStep {} ⟨true, true⟩ (DrawerEvent.setOpenProp false) =
      (⟨false, false⟩, []) :=
  ⟨drawer_externalSync_silent {} ⟨false, false⟩ true (by decide),
   drawer_externalSync_silent {} ⟨true, true⟩ false (by decide)⟩

/-- C2: from any internal state, `requestOpen` sets visibility to true and
fires `onOpen` exactly when it is provided, and `requestClose` sets
visibility to false and fires `onClose` exactly when it is provided; the
statement is unconditional in the current state, so both operations are
idempotent on visibility while the callback fires on every call, including
when the panel is already in the requested state. -/
theorem drawer_request_spec (p : DrawerProps) (s : DrawerState) :
    drawerStep p s DrawerEvent.requestOpen =
      ({ s with drawerOpen := true },
        if p.onOpen.isSome then [CbEvent.onOpenCall] else []) ∧
    drawerStep p s DrawerEvent.requestClose =
      ({ s with drawerOpen := false },
        if p.onClose.isSome then [CbEvent.onCloseCall] else []) := by
  constructor <;> simp [drawerStep, handleDrawerToggle]

/-- Helper for C3: running a request sequence leaves the remembered prop
value unchanged, folds the visibility (last request wins), and emits one
callback event per request whose callback is provided. -/
theorem drawerRun_requests (p : DrawerProps) (s : DrawerState)
    (reqs : List Bool) :
    (drawerRun p s (reqs.map reqEvent)).1 =
      ⟨s.propOpen, reqs.foldl (fun _ r => r) s.drawerOpen⟩ ∧
    (drawerRun p s (reqs.map reqEvent)).2.length =
      reqs.countP (fun r => if r then p.onOpen.isSome else p.onClose.isSome) := by
  induction reqs generalizing s with
  | nil => simp [drawerRun]
  | cons r rs ih =>
    obtain ⟨ih1, ih2⟩ := ih { s with drawerOpen := r }
    cases r <;>
      cases hO : p.onOpen.isSome <;> cases hC : p.onClose.isSome <;>
        simp_all [drawerRun, drawerStep, handleDrawerToggle, reqEvent,
          List.countP_cons]

/-- C3: for every sequence of `requestOpen`/`requestClose` calls applied
after mount with no intervening external `open` changes, the rendered
visibility equals the fold of the sequence over the seed (last call wins),
and the number of callback invocations equals the number of calls whose
callback is provided — repeats do not change visibility but still fire. -/
theorem drawer_requests_fold (p : DrawerProps) (reqs : List Bool) :
    (drawerRun p (mountDrawer p) (reqs.map reqEvent)).1.drawerOpen =
      reqs.foldl (fun _ r => r) ((mountDrawer p).drawerOpen) ∧
    (drawerRun p (mountDrawer p) (reqs.map reqEvent)).2.length =
      reqs.countP (fun r => if r then p.onOpen.isSome else p.onClose.isSome) := by
  obtain ⟨h1, h2⟩ := drawerRun_requests p (mountDrawer p) reqs
  exact ⟨by rw [h1], h2⟩

/-- C4 counterexample: the supplied empty-string title is falsy in
JavaScript, so the surface carries the generic `Drawer` label and no
labelled-by reference even though a title was supplied — refuting the claim
that a supplied title always yields the labelled-by mechanism. -/
theorem drawer_labelling_emptyTitle_cex :
    (paperProps (some "") "t0").ariaLabelledby = none ∧
    (paperProps (some "") "t0").ariaLabel = some "Drawer" := by
  constructor <;> decide

/-- C4 amended: exactly one labelling mechanism is present on every render
(never both, never neither); a truthy (nonempty) title yields the
labelled-by reference to the generated identifier and renders the title
heading, while an absent or empty title yields the generic static label. -/
theorem drawer_labelling_exactlyOne (p : DrawerProps) (titleId : String)
    (s : DrawerState) :
    ((renderDrawer p titleId s).paper.ariaLabelledby.isSome =
      !(renderDrawer p titleId s).paper.ariaLabel.isSome) ∧
    (strTruthy p.title = true →
      (renderDrawer p titleId s).paper.ariaLabelledby = some titleId ∧
      (renderDrawer p titleId s).paper.ariaLabel = none ∧
      (renderDrawer p titleId s).titleRendered = true) ∧
    (strTruthy p.title = false →
      (renderDrawer p titleId s).paper.ariaLabelledby = none ∧
      (renderDrawer p titleId s).paper.ariaLabel = some "Drawer") := by
  simp only [renderDrawer, paperProps]
  cases h : strTruthy p.title <;> simp [h]

/-- Witness for C4 amended: a nonempty title is labelled by reference, an
omitted title gets the generic label. -/
theorem drawer_labelling_exactlyOne_witness :
    (renderDrawer { title := some "Settings" } "t1"
      ⟨false, false⟩).paper.ariaLabelledby = some "t1" ∧
    (renderDrawer {} "t1" ⟨false, false⟩).paper.ariaLabel = some "Drawer" :=
  ⟨((drawer_labelling_exactlyOne { title := some "Settings" } "t1"
      ⟨false, false⟩).2.1 (by decide)).1,
   ((drawer_labelling_exactlyOne {} "t1" ⟨false, false⟩).2.2 (by decide)).2⟩

/-- C5: for every anchor and positive width value, a left/right anchor maps
the value to the width dimension and a top/bottom anchor maps it to the
height dimension, in each case equal to the supplied value; and the size the
render applies to the surface is exactly this pure function of the current
anchor and width. -/
theorem drawer_sizing_policy (p : Position) (w : Nat) (h : 0 < w) :
    ((p = Position.left ∨ p = Position.right) →
      drawerSize p w = SizeStyle.width w) ∧
    ((p = Position.top ∨ p = Position.bottom) →
      drawerSize p w = SizeStyle.height w) ∧
    (∀ (q : DrawerProps) (titleId : String) (s : DrawerState),
      (renderDrawer q titleId s).size =
        drawerSize (q.position.getD Position.left) (q.width.getD 400)) := by
  refine ⟨?_, ?_, fun q titleId s => rfl⟩ <;>
    rintro (rfl | rfl) <;> simp [drawerSize, isHorizontal]

/-- Witness for C5: at width 400, the left anchor gets a width entry and
the top anchor a height entry. -/
theorem drawer_sizing_policy_witness :
    drawerSize Position.left 400 = SizeStyle.width 400 ∧
    drawerSize Position.top 400 = SizeStyle.height 400 :=
  ⟨(drawer_sizing_policy Position.left 400 (by decide)).1 (Or.inl rfl),
   (drawer_sizing_policy Position.top 400 (by decide)).2.1 (Or.inl rfl)⟩

/-- C6 counterexample: an instance mounted with `position` left whose
`position` input later changes to right uses the right anchor on the later
render — the anchor is read from the current prop each render, not fixed at
creation, refuting the lifetime-fixed claim. -/
theorem drawer_anchor_not_fixed_cex :
    (renderDrawer { position := some Position.left } "t"
        (mountDrawer { position := some Position.left })).anchor =
      Position.left ∧
    (renderDrawer { position := some Position.right } "t"
        (mountDrawer { position := some Position.left })).anchor =
      Position.right ∧
    Position.right ≠ Position.left :=
  ⟨rfl, rfl, by decide⟩

/-- C6 amended: the anchor used on each render equals that render's
`position` input (default left) and depends on nothing else, so it stays
fixed exactly as long as the caller does not change the `position` input. -/
theorem drawer_anchor_follows_position (q q' : DrawerProps) (t t' : String)
    (s s' : DrawerState) (h : q.position = q'.position) :
    (renderDrawer q t s).anchor = (renderDrawer q' t' s').anchor ∧
    (renderDrawer q t s).anchor = q.position.getD Position.left := by
  simp [renderDrawer, h]

/-- Witness for C6 amended: two renders with the same position input use
the same anchor, whatever else changed. -/
theorem drawer_anchor_follows_position_witness :
    (renderDrawer { position := some Position.right, title := some "x" } "a"
        ⟨false, false⟩).anchor =
      (renderDrawer { position := some Position.right } "b"
        ⟨false, true⟩).anchor :=
  (drawer_anchor_follows_position
    { position := some Position.right, title := some "x" }
    { position := some Position.right } "a" "b"
    ⟨false, false⟩ ⟨false, true⟩ rfl).1

/-- C7: omitted options take their defaults — `open` false, `openButton`
and `closeButton` true, `position` left, `width` 400 — and the
openButton/closeButton flags gate the rendering of the trigger and dismiss
controls respectively. -/
theorem drawer_defaults (p : DrawerProps) (titleId : String)
    (s : DrawerState) :
    (p.«open» = none → mountDrawer p = ⟨false, false⟩) ∧
    (p.openButton = none → (renderDrawer p titleId s).triggerRendered = true) ∧
    (p.closeButton = none → (renderDrawer p titleId s).dismissRendered = true) ∧
    (p.position = none → (renderDrawer p titleId s).anchor = Position.left) ∧
    (p.width = none → (renderDrawer p titleId s).size =
      drawerSize (p.position.getD Position.left) 400) ∧
    ((renderDrawer p titleId s).triggerRendered = p.openButton.getD true) ∧
    ((renderDrawer p titleId s).dismissRendered = p.closeButton.getD true) := by
  refine ⟨?_, ?_, ?_, ?_, ?_, rfl, rfl⟩ <;>
    intro h <;> simp [mountDrawer, renderDrawer, h]

/-- Witness for C7: the all-defaults configuration mounts closed, shows
both controls, anchors left and sizes at 400. -/
theorem drawer_defaults_witness :
    mountDrawer {} = ⟨false, false⟩ ∧
    (renderDrawer {} "t" ⟨false, false⟩).triggerRendered = true ∧
    (renderDrawer {} "t" ⟨false, false⟩).dismissRendered = true ∧
    (renderDrawer {} "t" ⟨false, false⟩).anchor = Position.left ∧
    (renderDrawer {} "t" ⟨false, false⟩).size = drawerSize Position.left 400 :=
  ⟨(drawer_defaults {} "t" ⟨false, false⟩).1 rfl,
   (drawer_defaults {} "t" ⟨false, false⟩).2.1 rfl,
   (drawer_defaults {} "t" ⟨false, false⟩).2.2.1 rfl,
   (drawer_defaults {} "t" ⟨false, false⟩).2.2.2.1 rfl,
   (drawer_defaults {} "t" ⟨false, false⟩).2.2.2.2.1 rfl⟩

/-- C8: when a provided `onOpen` or `onClose` callback throws, the
exception propagates out of `handleDrawerToggle` unmodified, the callback
invocation is still recorded, and the visibility write — issued before the
notification — still takes effect. -/
theorem drawer_callback_exception (p : DrawerProps) (s : DrawerState)
    (e : Nat) :
    (p.onOpen = some (Except.error e) →
      handleDrawerToggle p true s =
        { state := { s with drawerOpen := true }
        , events := [CbEvent.onOpenCall]
        , result := Except.error e }) ∧
    (p.onClose = some (Except.error e) →
      handleDrawerToggle p false s =
        { state := { s with drawerOpen := false }
        , events := [CbEvent.onCloseCall]
        , result := Except.error e }) := by
  constructor <;> intro h <;> simp [handleDrawerToggle, h]

/-- Witness for C8: a throwing `onOpen` still opens the drawer and the
error id 7 comes back unmodified; symmetrically for `onClose` with id 9. -/
theorem drawer_callback_exception_witness :
    handleDrawerToggle { onOpen := some (Except.error 7) } true
        ⟨false, false⟩ =
      { state := ⟨false, true⟩, events := [CbEvent.onOpenCall]
      , result := Except.error 7 } ∧
    handleDrawerToggle { onClose := some (Except.error 9) } false
        ⟨true, true⟩ =
      { state := ⟨true, false⟩, events := [CbEvent.onCloseCall]
      , result := Except.error 9 } :=
  ⟨(drawer_callback_exception { onOpen := some (Except.error 7) }
      ⟨false, false⟩ 7).1 rfl,
   (drawer_callback_exception { onClose := some (Except.error 9) }
      ⟨true, true⟩ 9).2 rfl⟩

/-- C9: the `openButtonProps` bag is spread after the component's own
`onClick` and `aria-label`, so whenever the bag contains its own `onClick`
— whatever else it contains — activating the trigger invokes that
caller-supplied handler instead of the internal open request, leaving the
drawer state unchanged and firing only the custom invocation, never
`onOpen`; and, independently, whenever the bag contains its own
`aria-label`, it replaces the default trigger label. -/
theorem drawer_openButtonProps_override (p : DrawerProps) (s : DrawerState)
    (titleId : String) (cid : Nat) (lbl : String) :
    ((p.openButtonProps.getD {}).onClick =
        some (ClickHandler.custom cid) →
      (renderDrawer p titleId s).triggerProps.onClick =
        some (ClickHandler.custom cid) ∧
      activateTrigger p s = (s, [CbEvent.customClick cid])) ∧
    ((p.openButtonProps.getD {}).ariaLabel = some lbl →
      (renderDrawer p titleId s).triggerProps.ariaLabel = some lbl) := by
  constructor <;> intro h <;>
    simp [renderDrawer, mergeTriggerProps, activateTrigger, h]

/-- Witness for C9: a bag carrying only a custom click handler (id 5, no
`aria-label`) makes trigger activation leave the closed drawer closed and
record only the custom invocation; a bag carrying only an `aria-label`
replaces the default trigger label. -/
theorem drawer_openButtonProps_override_witness :
    activateTrigger
      { openButtonProps := some { onClick := some (ClickHandler.custom 5) } }
      ⟨false, false⟩ = (⟨false, false⟩, [CbEvent.customClick 5]) ∧
    (renderDrawer { openButtonProps := some { ariaLabel := some "Go" } }
      "t" ⟨false, false⟩).triggerProps.ariaLabel = some "Go" :=
  ⟨((drawer_openButtonProps_override
      { openButtonProps := some { onClick := some (ClickHandler.custom 5) } }
      ⟨false, false⟩ "t" 5 "Go").1 rfl).2,
   (drawer_openButtonProps_override
      { openButtonProps := some { ariaLabel := some "Go" } }
      ⟨false, false⟩ "t" 5 "Go").2 rfl⟩

/-- C10: whenever the NavBar menu is enabled, the embedded Drawer is
configured with `open` false (so it mounts closed), the trigger enabled,
and the fixed menu-icon button bag; since `drawerProps` omits `open`,
`openButton` and `openButtonProps`, no caller-supplied `drawerProps` can
change any of this. -/
theorem navBar_drawer_config (showMenu : Option Bool) (color : NavBarColor)
    (dp : NavBarDrawerProps) (h : showMenu.getD true = true) :
    navBarDrawer showMenu color dp = some (navBarDrawerConfig color dp) ∧
    (navBarDrawerConfig color dp).«open» = some false ∧
    mountDrawer (navBarDrawerConfig color dp) = ⟨false, false⟩ ∧
    (navBarDrawerConfig color dp).openButton = some true ∧
    (navBarDrawerConfig color dp).openButtonProps =
      some (navBarMenuButtonProps color) ∧
    (navBarMenuButtonProps color).content = some Node.menuIcon ∧
    (navBarMenuButtonProps color).ariaLabel = some "Open navigation menu" := by
  refine ⟨?_, rfl, rfl, rfl, rfl, rfl, rfl⟩
  simp [navBarDrawer, h]

/-- Witness for C10: with `showMenu` omitted (default true) the drawer is
rendered and mounts closed, whatever `drawerProps` the caller supplies. -/
theorem navBar_drawer_config_witness :
    navBarDrawer none NavBarColor.primary {} =
      some (navBarDrawerConfig NavBarColor.primary {}) ∧
    mountDrawer (navBarDrawerConfig NavBarColor.primary {}) =
      ⟨false, false⟩ :=
  ⟨(navBar_drawer_config none NavBarColor.primary {} rfl).1,
   (navBar_drawer_config none NavBarColor.primary {} rfl).2.2.1⟩

end Jsui
